import Mathlib

/-!
Verification of the spot0 city-cleanliness trust and consensus core.

Shallow embedding of the Supabase edge functions and the client dirty-report
flow:

* `createPendingSession`   — supabase/functions/create-pending-session/index.ts
* `submitCleanupReport`    — supabase/functions/submit-cleanup-report/index.ts
* `checkDirtyConsensus`    — supabase/functions/check-dirty-consensus/index.ts
* `submitReport`           — DirtyReportScreen.submitReport (client dirty-report flow)
* `submitCleanupClient`    — SubmitCleanupScreen.submitReport (client cleanup flow staged in MapScreen.tsx)
* `archiveMonthlyLeaderboard` — supabase/functions/archive-monthly-leaderboard/index.ts

The relational store is a record of lists of rows mirroring supabase/schema.sql
(columns not read or written by any of the modelled operations are omitted).
Timestamps are integers (milliseconds since epoch, as produced by Date.now(),
with the elapsed-minutes division carried out exactly over `ℚ`);
the "YYYY-MM" month key and the "YYYY-MM-DD" day key computed by
toISOString().slice in the source are carried in a `Clock` record supplied per
request, since they are pure functions of the wall clock.  GPS coordinates are
real numbers and the haversine distance is transcribed over `ℝ`.
-/

namespace Spot0

/-- Location.status ∈ dirty | pending | clean (schema CHECK constraint). -/
inductive LocationStatus
  | dirty
  | pending
  | clean
deriving DecidableEq

/-- Row of public.users (columns used by the modelled operations). -/
structure UserRow where
  id : Nat
  total_points : Int
  cleanups_done : Nat
  expo_push_token : Option String
deriving DecidableEq

/-- Row of public.locations (lat/lng/grid columns are never read by the
modelled operations and are omitted). -/
structure LocationRow where
  id : Nat
  status : LocationStatus
  last_cleaned_at : Option ℤ
deriving DecidableEq

/-- Row of public.pending_sessions. -/
structure PendingSessionRow where
  id : Nat
  user_id : Nat
  location_id : Nat
  before_image : String
  before_image_hash : String
  before_time : ℤ
  gps_lat : ℝ
  gps_lng : ℝ
  gps_accuracy : ℚ

/-- Row of public.cleanup_reports. -/
structure CleanupReportRow where
  id : Nat
  user_id : Nat
  location_id : Nat
  before_image : String
  before_image_hash : String
  after_image : String
  after_image_hash : String
  before_time : ℤ
  after_time : ℤ
  verified : Bool
  gps_low_confidence : Bool
deriving DecidableEq

/-- Row of public.dirty_reports. -/
structure DirtyReportRow where
  user_id : Nat
  location_id : Nat
  photo_url : String
  report_date : Nat
  created_at : ℤ
deriving DecidableEq

/-- Row of public.points_log. -/
structure PointsLogRow where
  user_id : Nat
  points : Int
  reason : String
  location_id : Option Nat
  month : String
deriving DecidableEq

/-- Row of public.guardians. -/
structure GuardianRow where
  user_id : Nat
  location_id : Nat
deriving DecidableEq

/-- Row of public.notifications. -/
structure NotificationRow where
  user_id : Nat
  message : String
  location_id : Nat
  read : Bool
deriving DecidableEq

/-- Row of public.leaderboard_snapshots. -/
structure SnapshotRow where
  month : String
  rank : Nat
  user_id : Nat
  points : Int
  archived_at : ℤ
deriving DecidableEq

/-- Row of public.drives (columns read by the client cleanup flow). -/
structure DriveRow where
  id : Nat
  lat : ℝ
  lng : ℝ
  radius_km : ℝ
  points_multiplier : ℚ
  status : String
  start_time : ℤ
  end_time : ℤ
  badge_name : String
  badge_color : String
  badge_icon : String

/-- Row of public.user_badges. -/
structure UserBadgeRow where
  user_id : Nat
  drive_id : Nat
  badge_name : String
  badge_color : String
  badge_icon : String
deriving DecidableEq

/-- One Expo push message of the notification fan-out request. -/
structure PushMsg where
  dest : String
  title : String
  body : String
  location_id : Nat
deriving DecidableEq

/-- The relational store.  `nextId` models server-side id generation for the
rows whose generated id is returned to the caller. -/
structure DB where
  nextId : Nat
  users : List UserRow
  locations : List LocationRow
  pending_sessions : List PendingSessionRow
  cleanup_reports : List CleanupReportRow
  dirty_reports : List DirtyReportRow
  points_log : List PointsLogRow
  guardians : List GuardianRow
  notifications : List NotificationRow
  leaderboard_snapshots : List SnapshotRow
  drives : List DriveRow
  user_badges : List UserBadgeRow

/-- Server wall clock of one request: Date.now() in milliseconds together with
the derived toISOString().slice(0,7) month key and toISOString().slice(0,10)
day key. -/
structure Clock where
  nowMs : ℤ
  month : String
  day : Nat

/-- External-collaborator environment of one submit-cleanup-report request:
whether CLOUDINARY_CLOUD_NAME (with key and secret) is configured, and whether
the image-diff try block threw. -/
structure Env where
  cloudinaryConfigured : Bool
  imageDiffThrew : Bool

/-- Error taxonomy of the HTTP handlers (each constructor stands for one of
the distinct error responses of the source). -/
inductive ApiError
  | unauthorized
  | duplicateEvidence
  | notFound
  | timeWindowExceeded
  | geoMismatch
deriving DecidableEq

/-- Success payload of submit-cleanup-report: the verified flag and report.id. -/
structure SubmitOk where
  verified : Bool
  report_id : Nat
deriving DecidableEq

/-- Response of check-dirty-consensus. -/
inductive ConsensusOut
  | progress (confirmations : Nat)
  | alreadyDirty
  | marked (fanout : List PushMsg) (notified : Nat)
deriving DecidableEq

/-- Response of the client dirty-report flow. -/
inductive DirtyOut
  | alreadyReported
  | done (c : ConsensusOut)
deriving DecidableEq

/-- Response of archive-monthly-leaderboard. -/
inductive ArchiveOut
  | forbidden
  | noData
  | archived (count : Nat)
deriving DecidableEq

/-- Request body of create-pending-session. -/
structure CreateSessionReq where
  location_id : Nat
  before_image : String
  before_image_hash : String
  gps_lat : ℝ
  gps_lng : ℝ
  gps_accuracy : ℚ

/-- Request body of submit-cleanup-report. -/
structure SubmitReq where
  session_id : Nat
  location_id : Nat
  after_image : String
  after_image_hash : String
  after_gps_lat : ℝ
  after_gps_lng : ℝ
  after_gps_accuracy : ℚ

/-- Request data of the client cleanup submission flow
(SubmitCleanupScreen.submitReport): the state it posts with — session and
location ids, the uploaded after image and its hash, and the capture GPS fix
used for drive matching. -/
structure ClientSubmitReq where
  session_id : Nat
  location_id : Nat
  after_image : String
  after_image_hash : String
  gps_lat : ℝ
  gps_lng : ℝ

/-- Outcome of the client cleanup submission flow. -/
inductive ClientOut
  | sessionNotFound
  | done
deriving DecidableEq

/-- Status of the first locations row with the given id, as read by
supabase .from locations .select status .eq id .single / optional chaining. -/
def statusOf (db : DB) (locId : Nat) : Option LocationStatus :=
  (db.locations.find? (fun l => l.id == locId)).map (fun l => l.status)

/-- The UPDATE of the verified branch of submit-cleanup-report:
set status clean and a fresh last_cleaned_at where id = locId. -/
def setClean (locId : Nat) (t : ℤ) (l : LocationRow) : LocationRow :=
  if l.id = locId then { l with status := .clean, last_cleaned_at := some t } else l

/-- The UPDATE of check-dirty-consensus: set status dirty where id = locId. -/
def setDirty (locId : Nat) (l : LocationRow) : LocationRow :=
  if l.id = locId then { l with status := .dirty } else l

/-- The UPDATE of the client dirty-report flow: set status pending where
id = locId and status = clean. -/
def cleanToPending (locId : Nat) (l : LocationRow) : LocationRow :=
  if l.id = locId ∧ l.status = .clean then { l with status := .pending } else l

/-- Great-circle distance in metres, haversine formula on a sphere of radius
6,371,000 m, transcribed from the `haversine` function of
submit-cleanup-report/index.ts. -/
noncomputable def haversine (lat1 lng1 lat2 lng2 : ℝ) : ℝ :=
  let toRad : ℝ → ℝ := fun d => d * Real.pi / 180
  let dLat := toRad (lat2 - lat1)
  let dLng := toRad (lng2 - lng1)
  let a := Real.sin (dLat / 2) ^ 2 +
    Real.cos (toRad lat1) * Real.cos (toRad lat2) * Real.sin (dLng / 2) ^ 2
  6371000 * 2 * Real.arcsin (Real.sqrt a)

/-- Modelled from the spec: the client screens import haversineKm from
src/mobile/src/lib/haversine.ts, which is not under src/; following the
spec's GeoMatcher (§4.1, spherical-earth haversine on mean radius
6,371,000 m), the helper is the same great-circle distance returned in
kilometres. -/
noncomputable def haversineKm (lat1 lng1 lat2 lng2 : ℝ) : ℝ :=
  haversine lat1 lng1 lat2 lng2 / 1000

/-- Handler of create-pending-session/index.ts.  `auth` is the result of
supabase.auth.getUser on the Authorization header (`none` when the header is
missing or invalid); `now` is the server clock used for the before_time
stamp. -/
def createPendingSession (auth : Option Nat) (now : ℤ) (req : CreateSessionReq)
    (db : DB) : DB × Except ApiError Nat :=
  match auth with
  | none => (db, .error .unauthorized)
  | some u =>
    if db.cleanup_reports.any (fun r => r.before_image_hash == req.before_image_hash) then
      (db, .error .duplicateEvidence)
    else
      ({ db with
          pending_sessions := db.pending_sessions ++
            [⟨db.nextId, u, req.location_id, req.before_image, req.before_image_hash,
              now, req.gps_lat, req.gps_lng, req.gps_accuracy⟩],
          nextId := db.nextId + 1 },
        .ok db.nextId)

/-- gpsLowConfidence of submit-cleanup-report line 143:
after_gps_accuracy > 50 || session.gps_accuracy > 50. -/
def gpsLowOf (req : SubmitReq) (s : PendingSessionRow) : Bool :=
  decide (req.after_gps_accuracy > 50) || decide (s.gps_accuracy > 50)

/-- isVerified of submit-cleanup-report line 196:
!gpsLowConfidence && (imageDiffPassed || !Deno.env.get CLOUDINARY_CLOUD_NAME),
where imageDiffPassed is true unless the image-diff try block threw. -/
def verifiedOf (env : Env) (req : SubmitReq) (s : PendingSessionRow) : Bool :=
  !gpsLowOf req s && (!env.imageDiffThrew || !env.cloudinaryConfigured)

/-- The cleanup_reports row inserted by submit-cleanup-report step 8. -/
def mkReport (rid u : Nat) (clock : Clock) (req : SubmitReq) (s : PendingSessionRow)
    (isVerified gpsLowConfidence : Bool) : CleanupReportRow :=
  ⟨rid, u, req.location_id, s.before_image, s.before_image_hash,
    req.after_image, req.after_image_hash, s.before_time, clock.nowMs,
    isVerified, gpsLowConfidence⟩

/-- Handler of submit-cleanup-report/index.ts, in source order: auth, fetch
pending session (by id and user_id), time-window check, GPS match, duplicate
after-image check against both hash columns, trust decision, unconditional
report insert, then on verified: points_log insert, increment_user_cleanup
RPC, location update to clean, pending-session delete by id. -/
noncomputable def submitCleanupReport (auth : Option Nat) (clock : Clock) (env : Env)
    (req : SubmitReq) (db : DB) : DB × Except ApiError SubmitOk :=
  match auth with
  | none => (db, .error .unauthorized)
  | some u =>
    match db.pending_sessions.find? (fun s => s.id == req.session_id && s.user_id == u) with
    | none => (db, .error .notFound)
    | some session =>
      let elapsedMin : ℚ := ((clock.nowMs - session.before_time : ℤ) : ℚ) / 60000
      if elapsedMin > 120 then (db, .error .timeWindowExceeded)
      else
        let distance := haversine session.gps_lat session.gps_lng
          req.after_gps_lat req.after_gps_lng
        if distance > 500 then (db, .error .geoMismatch)
        else
          let gpsLowConfidence := gpsLowOf req session
          if db.cleanup_reports.any (fun r =>
              r.after_image_hash == req.after_image_hash ||
              r.before_image_hash == req.after_image_hash) then
            (db, .error .duplicateEvidence)
          else
            let isReClean := db.cleanup_reports.any (fun r =>
              r.user_id == u && r.location_id == req.location_id)
            let isVerified := verifiedOf env req session
            let report := mkReport db.nextId u clock req session isVerified gpsLowConfidence
            let db1 := { db with
              cleanup_reports := db.cleanup_reports ++ [report],
              nextId := db.nextId + 1 }
            if isVerified then
              let points : Int := if isReClean then 15 else 10
              let reason := if isReClean then "verified_cleanup_reclean" else "verified_cleanup"
              let db2 := { db1 with
                points_log := db1.points_log ++
                  [(⟨u, points, reason, some req.location_id, clock.month⟩ : PointsLogRow)] }
              let db3 := { db2 with
                users := db2.users.map (fun (usr : UserRow) =>
                  if usr.id == u then
                    { usr with
                        total_points := usr.total_points + points,
                        cleanups_done := usr.cleanups_done + 1 }
                  else usr) }
              let db4 := { db3 with
                locations := db3.locations.map (setClean req.location_id clock.nowMs) }
              let db5 := { db4 with
                pending_sessions := db4.pending_sessions.filter
                  (fun s => !(s.id == req.session_id)) }
              (db5, .ok ⟨true, report.id⟩)
            else
              (db1, .ok ⟨false, report.id⟩)

/-- Handler of check-dirty-consensus/index.ts.  The source reads no
Authorization header; the `auth` argument is carried only to show that the
entry point ignores it. -/
def checkDirtyConsensus (auth : Option Nat) (clock : Clock) (location_id : Nat)
    (db : DB) : DB × ConsensusOut :=
  let since := clock.nowMs - 24 * 60 * 60 * 1000
  let reports := db.dirty_reports.filter (fun r =>
    r.location_id == location_id && since ≤ r.created_at)
  let uniqueUsers := (reports.map (fun r => r.user_id)).dedup
  if uniqueUsers.length < 3 then (db, .progress uniqueUsers.length)
  else if statusOf db location_id = some .dirty then (db, .alreadyDirty)
  else
    let db1 := { db with locations := db.locations.map (setDirty location_id) }
    let pointsInserts := uniqueUsers.map (fun uid =>
      (⟨uid, 3, "dirty_confirmation", some location_id, clock.month⟩ : PointsLogRow))
    let db2 := { db1 with points_log := db1.points_log ++ pointsInserts }
    let gs := db.guardians.filter (fun g => g.location_id == location_id)
    let fanout := gs.filterMap (fun g =>
      (db.users.find? (fun usr => usr.id == g.user_id)).bind (fun usr =>
        usr.expo_push_token.map (fun t =>
          (⟨t, "Guardian Alert",
            "A location you are guarding has been reported dirty again!",
            location_id⟩ : PushMsg))))
    let dbNotifs := gs.map (fun g =>
      (⟨g.user_id,
        "A location you are guarding has been reported dirty by " ++
          toString uniqueUsers.length ++ " users.",
        location_id, false⟩ : NotificationRow))
    let db3 := { db2 with notifications := db2.notifications ++ dbNotifs }
    (db3, .marked fanout gs.length)

/-- The client dirty-report flow, DirtyReportScreen.submitReport: duplicate
same-day check, dirty_reports insert, check-dirty-consensus invocation, then
the conditional flip of a clean location to pending. -/
def submitReport (user : Nat) (clock : Clock) (location_id : Nat) (photo_url : String)
    (db : DB) : DB × DirtyOut :=
  match db.dirty_reports.find? (fun r =>
      r.user_id == user && r.location_id == location_id && r.report_date == clock.day) with
  | some _ => (db, .alreadyReported)
  | none =>
    let db1 := { db with dirty_reports := db.dirty_reports ++
      [(⟨user, location_id, photo_url, clock.day, clock.nowMs⟩ : DirtyReportRow)] }
    let res := checkDirtyConsensus (some user) clock location_id db1
    let db3 := { res.1 with locations := res.1.locations.map (cleanToPending location_id) }
    (db3, .done res.2)

/-- The user_badges.upsert of the client cleanup flow, onConflict
(user_id, drive_id). -/
def upsertBadge (bs : List UserBadgeRow) (b : UserBadgeRow) : List UserBadgeRow :=
  if bs.any (fun x => x.user_id == b.user_id && x.drive_id == b.drive_id) then
    bs.map (fun x =>
      if x.user_id == b.user_id && x.drive_id == b.drive_id then b else x)
  else bs ++ [b]

/-- SubmitCleanupScreen.submitReport, the client cleanup submission flow
staged in MapScreen.tsx: fetch the pending session by id alone, insert a
cleanup report hard-coded verified = true and gps_low_confidence = false,
re-read the user's counters and write them back plus base and drive-bonus
points (a stale read-then-write, not the RPC), append the base points_log
row and, inside an active drive zone, the drive-bonus row and badge upsert,
then unconditionally set the location clean and delete the session by id.
The float drive bonus (multiplier - 1) × 10 lands in the INTEGER points
column; that cast is modelled as rounding. -/
noncomputable def submitCleanupClient (user : Nat) (clock : Clock)
    (req : ClientSubmitReq) (db : DB) : DB × ClientOut :=
  match db.pending_sessions.find? (fun s => s.id == req.session_id) with
  | none => (db, .sessionNotFound)
  | some session =>
    let report : CleanupReportRow :=
      ⟨db.nextId, user, req.location_id, session.before_image,
        session.before_image_hash, req.after_image, req.after_image_hash,
        session.before_time, clock.nowMs, true, false⟩
    let db1 := { db with
      cleanup_reports := db.cleanup_reports ++ [report],
      nextId := db.nextId + 1 }
    let currentUser := db1.users.find? (fun usr => usr.id == user)
    let activeDrives := db1.drives.filter (fun d =>
      d.status == "active" && decide (d.start_time ≤ clock.nowMs) &&
        decide (clock.nowMs ≤ d.end_time))
    let matchedDrive := activeDrives.find? (fun d =>
      decide (haversineKm req.gps_lat req.gps_lng d.lat d.lng ≤ d.radius_km))
    let basePoints : ℤ := 10
    let bonusPoints : ℚ := match matchedDrive with
      | some d => (d.points_multiplier - 1) * (basePoints : ℚ)
      | none => 0
    let bonusInt : ℤ := round bonusPoints
    let totalNewPoints : ℤ := basePoints + bonusInt
    let db2 := { db1 with
      users := db1.users.map (fun (usr : UserRow) =>
        if usr.id == user then
          { usr with
              total_points := ((currentUser.map
                (fun (c : UserRow) => c.total_points)).getD 0) + totalNewPoints,
              cleanups_done := ((currentUser.map
                (fun (c : UserRow) => c.cleanups_done)).getD 0) + 1 }
        else usr) }
    let db3 := { db2 with
      points_log := db2.points_log ++
        ((⟨user, basePoints, "verified_cleanup", some req.location_id,
          clock.month⟩ : PointsLogRow) ::
          (match matchedDrive with
           | some d =>
             if bonusPoints > 0 then
               [(⟨user, bonusInt, "drive_bonus_" ++ toString d.id,
                 some req.location_id, clock.month⟩ : PointsLogRow)]
             else []
           | none => [])) }
    let db4 := { db3 with
      user_badges := match matchedDrive with
        | some d =>
          if bonusPoints > 0 then
            upsertBadge db3.user_badges
              ⟨user, d.id, d.badge_name, d.badge_color, d.badge_icon⟩
          else db3.user_badges
        | none => db3.user_badges }
    let db5 := { db4 with
      locations := db4.locations.map (setClean req.location_id clock.nowMs) }
    let db6 := { db5 with
      pending_sessions := db5.pending_sessions.filter
        (fun s => !(s.id == req.session_id)) }
    (db6, .done)

/-- One step of the imperative Map fold of archive-monthly-leaderboard:
map.set(u, (map.get(u) ?? 0) + points), as an association list keeping
first-insertion order. -/
def bumpTotals (acc : List (Nat × Int)) (u : Nat) (p : Int) : List (Nat × Int) :=
  match acc with
  | [] => [(u, p)]
  | (v, t) :: rest => if v == u then (v, t + p) :: rest else (v, t) :: bumpTotals rest u p

/-- The per-user aggregation loop of archive-monthly-leaderboard. -/
def aggregateRows (rows : List PointsLogRow) : List (Nat × Int) :=
  rows.foldl (fun acc r => bumpTotals acc r.user_id r.points) []

/-- Total of a user in an aggregation result, 0 when absent
(map.get(u) ?? 0). -/
def lookupTotalD (acc : List (Nat × Int)) (u : Nat) : Int :=
  (((acc.find? (fun p => p.1 == u)).map (fun p => p.2)).getD 0)

/-- Handler of archive-monthly-leaderboard/index.ts.  `secretOk` is the
x-cron-secret comparison; `prevMonth` the computed previous-month key. -/
def archiveMonthlyLeaderboard (secretOk : Bool) (clock : Clock) (prevMonth : String)
    (db : DB) : DB × ArchiveOut :=
  if !secretOk then (db, .forbidden)
  else
    let rows := db.points_log.filter (fun r => r.month == prevMonth)
    if rows.isEmpty then (db, .noData)
    else
      let totals := aggregateRows rows
      let sorted := totals.mergeSort (fun a b => decide (b.2 ≤ a.2))
      let top := sorted.take 100
      let snapshot := top.enum.map (fun p =>
        (⟨prevMonth, p.1 + 1, p.2.1, p.2.2, clock.nowMs⟩ : SnapshotRow))
      ({ db with leaderboard_snapshots := db.leaderboard_snapshots ++ snapshot },
        .archived snapshot.length)

/-- The mutating operations of the repository, for statements quantifying
over every flow that writes location status or the points ledger: the three
edge functions, the monthly archive, the client dirty-report flow
(DirtyReportScreen.submitReport) and the client cleanup submission flow
(SubmitCleanupScreen.submitReport).  The only remaining location write
anywhere in the repository is the lazy grid-cell creation (MapScreen.tsx:329
and staged MapScreen.tsx:628), an INSERT of a fresh row in pending status
that never changes the status of an existing row and touches no ledger. -/
inductive Op
  | createSession (auth : Option Nat) (req : CreateSessionReq)
  | submitCleanup (auth : Option Nat) (env : Env) (req : SubmitReq)
  | dirtyReport (user : Nat) (locId : Nat) (photo : String)
  | consensus (auth : Option Nat) (locId : Nat)
  | archive (secretOk : Bool) (prevMonth : String)
  | cleanupClient (user : Nat) (req : ClientSubmitReq)

/-- Database effect of one operation. -/
noncomputable def step (clock : Clock) (op : Op) (db : DB) : DB :=
  match op with
  | .createSession a r => (createPendingSession a clock.nowMs r db).1
  | .submitCleanup a e r => (submitCleanupReport a clock e r db).1
  | .dirtyReport u l p => (submitReport u clock l p db).1
  | .consensus a l => (checkDirtyConsensus a clock l db).1
  | .archive s m => (archiveMonthlyLeaderboard s clock m db).1
  | .cleanupClient u r => (submitCleanupClient u clock r db).1

/-- monthlyTotalFor of the spec (§4.7): sum of the ledger entries with the
given user and month. -/
def monthlyTotalFor (db : DB) (u : Nat) (m : String) : Int :=
  ((db.points_log.filter (fun r => r.user_id == u && r.month == m)).map
    (fun r => r.points)).sum

/-- Lifetime total of the spec (§4.7): sum of every ledger entry of the
user. -/
def totalFor (db : DB) (u : Nat) : Int :=
  ((db.points_log.filter (fun r => r.user_id == u)).map (fun r => r.points)).sum

/-- total_points column of the first users row with the given id — what the
profile and all-time leaderboard screens display as the lifetime total. -/
def totalPointsColumn (db : DB) (u : Nat) : Option Int :=
  (db.users.find? (fun usr => usr.id == u)).map (fun usr => usr.total_points)

/-- Fan-out content of a consensus response. -/
def fanoutOf : ConsensusOut → List PushMsg
  | .marked f _ => f
  | _ => []

/-- Fan-out content of a dirty-report response. -/
def dirtyFanout : DirtyOut → List PushMsg
  | .alreadyReported => []
  | .done c => fanoutOf c

/-! Haversine facts used to discharge the GPS check on concrete inputs. -/

/-- The haversine distance between a point and itself is zero. -/
theorem haversine_self (lat lng : ℝ) : haversine lat lng lat lng = 0 := by
  unfold haversine
  simp [sub_self]

/-- From the equator prime meridian to its antipode the haversine distance is
the full half-circumference 6,371,000 · π. -/
theorem haversine_antipodal : haversine 0 0 0 180 = 6371000 * Real.pi := by
  unfold haversine
  have h180 : (180 : ℝ) * Real.pi / 180 = Real.pi :=
    mul_div_cancel_left₀ _ (by norm_num)
  simp only [sub_zero, sub_self, zero_mul, zero_div, Real.sin_zero, Real.cos_zero,
    h180, Real.sin_pi_div_two, one_mul, mul_one, one_pow]
  norm_num [Real.arcsin_one]
  ring

/-- That antipodal distance exceeds the 500 m ceiling. -/
theorem haversine_antipodal_gt : haversine 0 0 0 180 > 500 := by
  rw [haversine_antipodal]
  nlinarith [Real.pi_gt_three]

/-! find?/map infrastructure for the conditional row updates. -/

/-- find? by id commutes with mapping an id-preserving row update. -/
theorem find?_map_id {f : LocationRow → LocationRow} (hf : ∀ l, (f l).id = l.id)
    (ls : List LocationRow) (locId : Nat) :
    (ls.map f).find? (fun l => l.id == locId) =
      (ls.find? (fun l => l.id == locId)).map f := by
  rw [List.find?_map]
  have hp : ((fun l : LocationRow => l.id == locId) ∘ f) =
      (fun l : LocationRow => l.id == locId) := by
    funext l
    simp [Function.comp, hf]
  rw [hp]

theorem setClean_id (i : Nat) (t : ℤ) (l : LocationRow) : (setClean i t l).id = l.id := by
  unfold setClean; split <;> rfl

theorem setDirty_id (i : Nat) (l : LocationRow) : (setDirty i l).id = l.id := by
  unfold setDirty; split <;> rfl

theorem cleanToPending_id (i : Nat) (l : LocationRow) : (cleanToPending i l).id = l.id := by
  unfold cleanToPending; split <;> rfl

/-- statusOf through a mapped id-preserving update of the locations table. -/
theorem statusOf_of_map {f : LocationRow → LocationRow} (hf : ∀ l, (f l).id = l.id)
    (db db2 : DB) (h : db2.locations = db.locations.map f) (locId : Nat) :
    statusOf db2 locId =
      (db.locations.find? (fun l => l.id == locId)).map (fun l => (f l).status) := by
  unfold statusOf
  rw [h, find?_map_id hf]
  cases db.locations.find? (fun l => l.id == locId) <;> rfl


/-- statusOf only reads the locations table. -/
theorem statusOf_congr (db db2 : DB) (h : db2.locations = db.locations) (locId : Nat) :
    statusOf db2 locId = statusOf db locId := by
  unfold statusOf
  rw [h]

/-- A row returned by find? by id has that id. -/
theorem find?_id_eq {ls : List LocationRow} {locId : Nat} {l : LocationRow}
    (h : ls.find? (fun x => x.id == locId) = some l) : l.id = locId := by
  have := List.find?_some h
  simpa using this

/-- Unpacking a statusOf result into the found row. -/
theorem statusOf_some {db : DB} {locId : Nat} {st : LocationStatus}
    (h : statusOf db locId = some st) :
    ∃ l0, db.locations.find? (fun l => l.id == locId) = some l0 ∧
      l0.status = st ∧ l0.id = locId := by
  unfold statusOf at h
  cases hf : db.locations.find? (fun l => l.id == locId) with
  | none => rw [hf] at h; exact absurd h (by simp)
  | some l0 =>
    rw [hf] at h
    exact ⟨l0, rfl, by simpa using h, find?_id_eq hf⟩

/-! Path lemmas for submitCleanupReport, one per early return of the source. -/

theorem submit_unauthorized (clock : Clock) (env : Env) (req : SubmitReq) (db : DB) :
    submitCleanupReport none clock env req db = (db, .error .unauthorized) := rfl

theorem submit_notFound (u : Nat) (clock : Clock) (env : Env) (req : SubmitReq) (db : DB)
    (h : db.pending_sessions.find? (fun s => s.id == req.session_id && s.user_id == u)
      = none) :
    submitCleanupReport (some u) clock env req db = (db, .error .notFound) := by
  simp only [submitCleanupReport, h]

theorem submit_timeWindow (u : Nat) (clock : Clock) (env : Env) (req : SubmitReq) (db : DB)
    (s : PendingSessionRow)
    (hs : db.pending_sessions.find? (fun x => x.id == req.session_id && x.user_id == u)
      = some s)
    (ht : ((clock.nowMs - s.before_time : ℤ) : ℚ) / 60000 > 120) :
    submitCleanupReport (some u) clock env req db = (db, .error .timeWindowExceeded) := by
  simp only [submitCleanupReport, hs]
  rw [if_pos ht]

theorem submit_geoMismatch (u : Nat) (clock : Clock) (env : Env) (req : SubmitReq) (db : DB)
    (s : PendingSessionRow)
    (hs : db.pending_sessions.find? (fun x => x.id == req.session_id && x.user_id == u)
      = some s)
    (ht : ¬(((clock.nowMs - s.before_time : ℤ) : ℚ) / 60000 > 120))
    (hg : haversine s.gps_lat s.gps_lng req.after_gps_lat req.after_gps_lng > 500) :
    submitCleanupReport (some u) clock env req db = (db, .error .geoMismatch) := by
  simp only [submitCleanupReport, hs]
  rw [if_neg ht, if_pos hg]

theorem submit_duplicate (u : Nat) (clock : Clock) (env : Env) (req : SubmitReq) (db : DB)
    (s : PendingSessionRow)
    (hs : db.pending_sessions.find? (fun x => x.id == req.session_id && x.user_id == u)
      = some s)
    (ht : ¬(((clock.nowMs - s.before_time : ℤ) : ℚ) / 60000 > 120))
    (hg : ¬(haversine s.gps_lat s.gps_lng req.after_gps_lat req.after_gps_lng > 500))
    (hd : db.cleanup_reports.any (fun r =>
      r.after_image_hash == req.after_image_hash ||
      r.before_image_hash == req.after_image_hash) = true) :
    submitCleanupReport (some u) clock env req db = (db, .error .duplicateEvidence) := by
  simp only [submitCleanupReport, hs]
  rw [if_neg ht, if_neg hg, if_pos hd]

/-- The flagged terminal outcome: the report is persisted, nothing else
changes. -/
theorem submit_flagged (u : Nat) (clock : Clock) (env : Env) (req : SubmitReq) (db : DB)
    (s : PendingSessionRow)
    (hs : db.pending_sessions.find? (fun x => x.id == req.session_id && x.user_id == u)
      = some s)
    (ht : ¬(((clock.nowMs - s.before_time : ℤ) : ℚ) / 60000 > 120))
    (hg : ¬(haversine s.gps_lat s.gps_lng req.after_gps_lat req.after_gps_lng > 500))
    (hd : db.cleanup_reports.any (fun r =>
      r.after_image_hash == req.after_image_hash ||
      r.before_image_hash == req.after_image_hash) = false)
    (hv : verifiedOf env req s = false) :
    submitCleanupReport (some u) clock env req db =
      ({ db with
          cleanup_reports := db.cleanup_reports ++
            [mkReport db.nextId u clock req s false (gpsLowOf req s)],
          nextId := db.nextId + 1 },
        .ok ⟨false, db.nextId⟩) := by
  simp only [submitCleanupReport, hs]
  rw [if_neg ht, if_neg hg, if_neg (by simp [hd]), hv]
  simp [mkReport]

/-- The verified terminal outcome, with every side effect of the source in
order: report insert, points_log append, increment_user_cleanup, location
update to clean, pending-session delete by id. -/
theorem submit_verified (u : Nat) (clock : Clock) (env : Env) (req : SubmitReq) (db : DB)
    (s : PendingSessionRow)
    (hs : db.pending_sessions.find? (fun x => x.id == req.session_id && x.user_id == u)
      = some s)
    (ht : ¬(((clock.nowMs - s.before_time : ℤ) : ℚ) / 60000 > 120))
    (hg : ¬(haversine s.gps_lat s.gps_lng req.after_gps_lat req.after_gps_lng > 500))
    (hd : db.cleanup_reports.any (fun r =>
      r.after_image_hash == req.after_image_hash ||
      r.before_image_hash == req.after_image_hash) = false)
    (hv : verifiedOf env req s = true) :
    submitCleanupReport (some u) clock env req db =
      ({ db with
          cleanup_reports := db.cleanup_reports ++
            [mkReport db.nextId u clock req s true (gpsLowOf req s)],
          nextId := db.nextId + 1,
          points_log := db.points_log ++
            [⟨u,
              if db.cleanup_reports.any (fun r =>
                r.user_id == u && r.location_id == req.location_id) then 15 else 10,
              if db.cleanup_reports.any (fun r =>
                r.user_id == u && r.location_id == req.location_id) then
                "verified_cleanup_reclean" else "verified_cleanup",
              some req.location_id, clock.month⟩],
          users := db.users.map (fun (usr : UserRow) =>
            if usr.id == u then
              { usr with
                  total_points := usr.total_points +
                    (if db.cleanup_reports.any (fun r =>
                      r.user_id == u && r.location_id == req.location_id) then 15 else 10),
                  cleanups_done := usr.cleanups_done + 1 }
            else usr),
          locations := db.locations.map (setClean req.location_id clock.nowMs),
          pending_sessions := db.pending_sessions.filter
            (fun x => !(x.id == req.session_id)) },
        .ok ⟨true, db.nextId⟩) := by
  simp only [submitCleanupReport, hs]
  rw [if_neg ht, if_neg hg, if_neg (by simp [hd]), hv]
  simp [mkReport]

/-! Shape lemmas: which tables each handler can touch, and how. -/

theorem create_shape (a : Option Nat) (t : ℤ) (req : CreateSessionReq) (db : DB) :
    ((createPendingSession a t req db).1).locations = db.locations ∧
    ((createPendingSession a t req db).1).points_log = db.points_log := by
  cases a with
  | none => exact ⟨rfl, rfl⟩
  | some u =>
    constructor <;> (simp only [createPendingSession]; split <;> rfl)

theorem archive_shape (s : Bool) (clock : Clock) (m : String) (db : DB) :
    ((archiveMonthlyLeaderboard s clock m db).1).locations = db.locations ∧
    ((archiveMonthlyLeaderboard s clock m db).1).points_log = db.points_log := by
  constructor <;>
    (simp only [archiveMonthlyLeaderboard]
     split
     · rfl
     · split <;> rfl)

/-- Either submit-cleanup-report leaves locations and ledger untouched (every
error path and the flagged outcome), or the claim was verified: the location
is set clean, exactly one ledger entry is appended, and the response carries
verified = true. -/
theorem submitCleanup_shape (a : Option Nat) (clock : Clock) (env : Env)
    (req : SubmitReq) (db : DB) :
    (((submitCleanupReport a clock env req db).1).locations = db.locations ∧
     ((submitCleanupReport a clock env req db).1).points_log = db.points_log) ∨
    (((submitCleanupReport a clock env req db).1).locations =
        db.locations.map (setClean req.location_id clock.nowMs) ∧
     (∃ e, ((submitCleanupReport a clock env req db).1).points_log =
        db.points_log ++ [e]) ∧
     (submitCleanupReport a clock env req db).2 = .ok ⟨true, db.nextId⟩) := by
  cases a with
  | none => exact Or.inl ⟨rfl, rfl⟩
  | some u =>
    cases hs : db.pending_sessions.find?
        (fun x => x.id == req.session_id && x.user_id == u) with
    | none => rw [submit_notFound u clock env req db hs]; exact Or.inl ⟨rfl, rfl⟩
    | some s =>
      by_cases ht : ((clock.nowMs - s.before_time : ℤ) : ℚ) / 60000 > 120
      · rw [submit_timeWindow u clock env req db s hs ht]; exact Or.inl ⟨rfl, rfl⟩
      by_cases hg : haversine s.gps_lat s.gps_lng req.after_gps_lat req.after_gps_lng > 500
      · rw [submit_geoMismatch u clock env req db s hs ht hg]; exact Or.inl ⟨rfl, rfl⟩
      cases hd : db.cleanup_reports.any (fun r =>
          r.after_image_hash == req.after_image_hash ||
          r.before_image_hash == req.after_image_hash) with
      | true => rw [submit_duplicate u clock env req db s hs ht hg hd]; exact Or.inl ⟨rfl, rfl⟩
      | false =>
        cases hv : verifiedOf env req s with
        | false => rw [submit_flagged u clock env req db s hs ht hg hd hv]; exact Or.inl ⟨rfl, rfl⟩
        | true =>
          rw [submit_verified u clock env req db s hs ht hg hd hv]
          exact Or.inr ⟨rfl, ⟨_, rfl⟩, rfl⟩

/-- Either check-dirty-consensus changes nothing, or it sets the location
dirty and appends ledger entries. -/
theorem consensus_shape (a : Option Nat) (clock : Clock) (loc : Nat) (db : DB) :
    ((checkDirtyConsensus a clock loc db).1 = db) ∨
    (((checkDirtyConsensus a clock loc db).1).locations =
        db.locations.map (setDirty loc) ∧
     ∃ ps, ((checkDirtyConsensus a clock loc db).1).points_log = db.points_log ++ ps) := by
  simp only [checkDirtyConsensus]
  split
  · exact Or.inl rfl
  split
  · exact Or.inl rfl
  · exact Or.inr ⟨rfl, _, rfl⟩

/-- On a location that is already dirty, check-dirty-consensus changes nothing
and emits no fan-out. -/
theorem consensus_dirty_noop (a : Option Nat) (clock : Clock) (loc : Nat) (db : DB)
    (h : statusOf db loc = some .dirty) :
    (checkDirtyConsensus a clock loc db).1 = db ∧
    ((checkDirtyConsensus a clock loc db).2 = .alreadyDirty ∨
      ∃ n, (checkDirtyConsensus a clock loc db).2 = .progress n) := by
  simp only [checkDirtyConsensus]
  split
  · exact ⟨rfl, Or.inr ⟨_, rfl⟩⟩
  · exact ⟨rfl, Or.inl rfl⟩

/-- The dirty-report flow leaves locations untouched, flips the reported
location from clean to pending, or does that flip on top of the consensus
transition to dirty; its only ledger effect is the consensus append. -/
theorem submitReport_shape (u : Nat) (clock : Clock) (loc : Nat) (photo : String)
    (db : DB) :
    (((submitReport u clock loc photo db).1).locations = db.locations ∨
     ((submitReport u clock loc photo db).1).locations =
        db.locations.map (cleanToPending loc) ∨
     ((submitReport u clock loc photo db).1).locations =
        (db.locations.map (setDirty loc)).map (cleanToPending loc)) ∧
    (∃ ps, ((submitReport u clock loc photo db).1).points_log = db.points_log ++ ps) := by
  cases hf : db.dirty_reports.find? (fun r =>
      r.user_id == u && r.location_id == loc && r.report_date == clock.day) with
  | some r =>
    have hrw : submitReport u clock loc photo db = (db, .alreadyReported) := by
      simp only [submitReport, hf]
    rw [hrw]
    exact ⟨Or.inl rfl, [], by simp⟩
  | none =>
    have hrw : submitReport u clock loc photo db =
        (let db1 : DB := { db with dirty_reports := db.dirty_reports ++
          [(⟨u, loc, photo, clock.day, clock.nowMs⟩ : DirtyReportRow)] }
         let res := checkDirtyConsensus (some u) clock loc db1
         ({ res.1 with locations := res.1.locations.map (cleanToPending loc) },
          .done res.2)) := by
      simp only [submitReport, hf]
    rw [hrw]
    simp only
    rcases consensus_shape (some u) clock loc
        { db with dirty_reports := db.dirty_reports ++
          [(⟨u, loc, photo, clock.day, clock.nowMs⟩ : DirtyReportRow)] } with
      hid | ⟨hl, ps, hp⟩
    · constructor
      · exact Or.inr (Or.inl (by rw [hid]))
      · exact ⟨[], by rw [hid, List.append_nil]⟩
    · constructor
      · exact Or.inr (Or.inr (by rw [hl]))
      · exact ⟨ps, by rw [hp]⟩

/-- Either the client cleanup flow changes nothing (session missing), or it
sets the location clean and appends ledger entries. -/
theorem submitCleanupClient_shape (u : Nat) (clock : Clock) (req : ClientSubmitReq)
    (db : DB) :
    (((submitCleanupClient u clock req db).1).locations = db.locations ∧
     ((submitCleanupClient u clock req db).1).points_log = db.points_log) ∨
    (((submitCleanupClient u clock req db).1).locations =
        db.locations.map (setClean req.location_id clock.nowMs) ∧
     ∃ ps, ((submitCleanupClient u clock req db).1).points_log =
        db.points_log ++ ps) := by
  cases hf : db.pending_sessions.find? (fun s => s.id == req.session_id) with
  | none =>
    have hrw : submitCleanupClient u clock req db = (db, .sessionNotFound) := by
      simp only [submitCleanupClient, hf]
    rw [hrw]
    exact Or.inl ⟨rfl, rfl⟩
  | some s =>
    refine Or.inr ⟨?_, ?_⟩
    · simp only [submitCleanupClient, hf]
    · simp only [submitCleanupClient, hf]
      exact ⟨_, rfl⟩

/-! Aggregation lemmas for the monthly archive. -/

theorem lookupTotalD_nil (u : Nat) : lookupTotalD [] u = 0 := rfl

theorem lookupTotalD_bump (acc : List (Nat × Int)) (v : Nat) (p : Int) (u : Nat) :
    lookupTotalD (bumpTotals acc v p) u =
      lookupTotalD acc u + (if v = u then p else 0) := by
  induction acc with
  | nil =>
    by_cases h : v = u
    · subst h; simp [bumpTotals, lookupTotalD, List.find?]
    · have hb : (v == u) = false := by simp [h]
      simp [bumpTotals, lookupTotalD, List.find?, hb, h]
  | cons hd rest ih =>
    obtain ⟨w, t⟩ := hd
    by_cases hwv : w = v
    · subst hwv
      by_cases hwu : w = u
      · subst hwu
        simp [bumpTotals, lookupTotalD, List.find?]
      · have hb : (w == u) = false := by simp [hwu]
        have hb2 : (w == w) = true := by simp
        simp [bumpTotals, lookupTotalD, List.find?, hb, hwu, hb2]
    · have hbv : (w == v) = false := by simp [hwv]
      by_cases hwu : w = u
      · subst hwu
        have hvu : ¬v = w := fun hh => hwv hh.symm
        have hbu : (w == w) = true := by simp
        simp [bumpTotals, lookupTotalD, List.find?, hbv, hvu, hbu]
      · have hbu : (w == u) = false := by simp [hwu]
        simp only [bumpTotals, hbv, Bool.false_eq_true, if_false,
          lookupTotalD, List.find?, hbu]
        exact ih

theorem lookupTotalD_foldl (rows : List PointsLogRow) (acc : List (Nat × Int)) (u : Nat) :
    lookupTotalD (rows.foldl (fun a r => bumpTotals a r.user_id r.points) acc) u =
      lookupTotalD acc u +
        ((rows.filter (fun r => r.user_id == u)).map (fun r => r.points)).sum := by
  induction rows generalizing acc with
  | nil => simp
  | cons r rest ih =>
    rw [List.foldl_cons, ih, lookupTotalD_bump]
    by_cases h : r.user_id = u <;>
      simp [List.filter_cons, h] <;> ring

/-- The imperative Map aggregation of the archive equals the pure per-user
ledger sum. -/
theorem lookupTotalD_aggregate (rows : List PointsLogRow) (u : Nat) :
    lookupTotalD (aggregateRows rows) u =
      ((rows.filter (fun r => r.user_id == u)).map (fun r => r.points)).sum := by
  unfold aggregateRows
  rw [lookupTotalD_foldl]
  simp [lookupTotalD]

theorem monthlyTotalFor_append (db : DB) (e : PointsLogRow) (u : Nat) (m : String) :
    monthlyTotalFor { db with points_log := db.points_log ++ [e] } u m =
      monthlyTotalFor db u m + (if e.user_id = u ∧ e.month = m then e.points else 0) := by
  unfold monthlyTotalFor
  by_cases h1 : e.user_id = u <;> by_cases h2 : e.month = m <;>
    simp [List.filter_append, h1, h2]

/-! Concrete fixtures for witnesses and counterexamples. -/

/-- A fixed request clock: one minute past the epoch. -/
def clock0 : Clock := ⟨60000, "2026-10", 20⟩

/-- Environment without a configured similarity collaborator. -/
def env0 : Env := ⟨false, false⟩

/-- An empty store holding one clean location with id 1. -/
def dbClean : DB := ⟨1, [], [⟨1, .clean, none⟩], [], [], [], [], [], [], [], [], []⟩

/-! C1 — status writers. -/

/-- C1: the claim that only an accepted cleanup report (to clean) and a
consensus threshold crossing (to dirty) ever write a location status is
refuted by the dirty-report flow: a single dirty report on a clean location,
far below the consensus threshold, flips its status to pending. -/
theorem C1_counterexample :
    statusOf dbClean 1 = some .clean ∧
    statusOf (submitReport 7 clock0 1 "p" dbClean).1 1 = some .pending ∧
    (submitReport 7 clock0 1 "p" dbClean).2 = .done (.progress 1) := by
  decide

/-- C1 (amended): across every status- or ledger-mutating flow of the
repository, a location status is written by exactly four paths — the server
pipeline sets it to clean only on an accepted (verified) cleanup report, the
consensus logic (standalone or invoked from a dirty report) sets it to dirty,
the dirty-report flow flips a clean location to pending, and the client
cleanup submission flow sets it to clean unconditionally, without the server
verification pipeline.  No other operation writes the status of an existing
location. -/
theorem C1_status_writers (clock : Clock) (op : Op) (db : DB) (ℓ : Nat)
    (stOld stNew : LocationStatus)
    (hOld : statusOf db ℓ = some stOld)
    (hNew : statusOf (step clock op db) ℓ = some stNew)
    (hne : stNew ≠ stOld) :
    (∃ a e r, op = Op.submitCleanup a e r ∧ r.location_id = ℓ ∧ stNew = .clean ∧
      (submitCleanupReport a clock e r db).2 = .ok ⟨true, db.nextId⟩) ∨
    (∃ a, op = Op.consensus a ℓ ∧ stNew = .dirty) ∨
    (∃ u p, op = Op.dirtyReport u ℓ p ∧
      (stNew = .dirty ∨ (stOld = .clean ∧ stNew = .pending))) ∨
    (∃ u r, op = Op.cleanupClient u r ∧ r.location_id = ℓ ∧ stNew = .clean) := by
  obtain ⟨l0, hfind, hst, hid⟩ := statusOf_some hOld
  cases op with
  | createSession a r =>
    exfalso
    apply hne
    have h := statusOf_congr db (step clock (.createSession a r) db)
      (create_shape a clock.nowMs r db).1 ℓ
    rw [h, hOld] at hNew
    exact (Option.some.inj hNew).symm
  | archive s m =>
    exfalso
    apply hne
    have h := statusOf_congr db (step clock (.archive s m) db)
      (archive_shape s clock m db).1 ℓ
    rw [h, hOld] at hNew
    exact (Option.some.inj hNew).symm
  | submitCleanup a e r =>
    rcases submitCleanup_shape a clock e r db with ⟨hl, _⟩ | ⟨hl, _, hres⟩
    · exfalso
      apply hne
      have h := statusOf_congr db (step clock (.submitCleanup a e r) db) hl ℓ
      rw [h, hOld] at hNew
      exact (Option.some.inj hNew).symm
    · have h := statusOf_of_map (setClean_id r.location_id clock.nowMs) db
        (step clock (.submitCleanup a e r) db) hl ℓ
      rw [h, hfind] at hNew
      have hstNew : (setClean r.location_id clock.nowMs l0).status = stNew :=
        Option.some.inj hNew
      by_cases heq : l0.id = r.location_id
      · refine Or.inl ⟨a, e, r, rfl, by rw [← heq, hid], ?_, hres⟩
        rw [← hstNew]
        unfold setClean
        rw [if_pos heq]
      · exfalso
        apply hne
        rw [← hstNew, ← hst]
        unfold setClean
        rw [if_neg heq]
  | consensus a l =>
    rcases consensus_shape a clock l db with hdb | ⟨hl, _⟩
    · exfalso
      apply hne
      have h := statusOf_congr db (step clock (.consensus a l) db)
        (by show ((checkDirtyConsensus a clock l db).1).locations = db.locations
            rw [hdb]) ℓ
      rw [h, hOld] at hNew
      exact (Option.some.inj hNew).symm
    · have h := statusOf_of_map (setDirty_id l) db
        (step clock (.consensus a l) db) hl ℓ
      rw [h, hfind] at hNew
      have hstNew : (setDirty l l0).status = stNew := Option.some.inj hNew
      by_cases heq : l0.id = l
      · refine Or.inr (Or.inl ⟨a, ?_, ?_⟩)
        · rw [← heq, hid]
        · rw [← hstNew]
          unfold setDirty
          rw [if_pos heq]
      · exfalso
        apply hne
        rw [← hstNew, ← hst]
        unfold setDirty
        rw [if_neg heq]
  | dirtyReport u l p =>
    rcases (submitReport_shape u clock l p db).1 with hl | hl | hl
    · exfalso
      apply hne
      have h := statusOf_congr db (step clock (.dirtyReport u l p) db) hl ℓ
      rw [h, hOld] at hNew
      exact (Option.some.inj hNew).symm
    · have h := statusOf_of_map (cleanToPending_id l) db
        (step clock (.dirtyReport u l p) db) hl ℓ
      rw [h, hfind] at hNew
      have hstNew : (cleanToPending l l0).status = stNew := Option.some.inj hNew
      by_cases heq : l0.id = l ∧ l0.status = .clean
      · refine Or.inr (Or.inr (Or.inl ⟨u, p, ?_, Or.inr ⟨?_, ?_⟩⟩))
        · rw [← heq.1, hid]
        · rw [← hst, heq.2]
        · rw [← hstNew]
          unfold cleanToPending
          rw [if_pos heq]
      · exfalso
        apply hne
        rw [← hstNew, ← hst]
        unfold cleanToPending
        rw [if_neg heq]
    · have hl2 : (step clock (.dirtyReport u l p) db).locations =
          db.locations.map (fun x => cleanToPending l (setDirty l x)) := by
        show (submitReport u clock l p db).1.locations = _
        rw [hl, List.map_map]
        rfl
      have hcomp : ∀ x : LocationRow, (cleanToPending l (setDirty l x)).id = x.id := by
        intro x
        rw [cleanToPending_id, setDirty_id]
      have h := statusOf_of_map hcomp db (step clock (.dirtyReport u l p) db) hl2 ℓ
      rw [h, hfind] at hNew
      have hstNew : (cleanToPending l (setDirty l l0)).status = stNew :=
        Option.some.inj hNew
      by_cases heq : l0.id = l
      · refine Or.inr (Or.inr (Or.inl ⟨u, p, ?_, Or.inl ?_⟩))
        · rw [← heq, hid]
        · rw [← hstNew]
          unfold setDirty
          rw [if_pos heq]
          unfold cleanToPending
          rw [if_neg (by simp)]
      · exfalso
        apply hne
        rw [← hstNew, ← hst]
        unfold setDirty cleanToPending
        rw [if_neg heq, if_neg (by simp [heq])]
  | cleanupClient u2 r =>
    rcases submitCleanupClient_shape u2 clock r db with ⟨hl, _⟩ | ⟨hl, _⟩
    · exfalso
      apply hne
      have h := statusOf_congr db (step clock (.cleanupClient u2 r) db) hl ℓ
      rw [h, hOld] at hNew
      exact (Option.some.inj hNew).symm
    · have h := statusOf_of_map (setClean_id r.location_id clock.nowMs) db
        (step clock (.cleanupClient u2 r) db) hl ℓ
      rw [h, hfind] at hNew
      have hstNew : (setClean r.location_id clock.nowMs l0).status = stNew :=
        Option.some.inj hNew
      by_cases heq : l0.id = r.location_id
      · refine Or.inr (Or.inr (Or.inr ⟨u2, r, rfl, by rw [← heq, hid], ?_⟩))
        rw [← hstNew]
        unfold setClean
        rw [if_pos heq]
      · exfalso
        apply hne
        rw [← hstNew, ← hst]
        unfold setClean
        rw [if_neg heq]

/-- C1 witness: the amended theorem applied to a clean location receiving a
single dirty report. -/
theorem C1_status_writers_witness :
    (∃ a e r, Op.dirtyReport 7 1 "p" = Op.submitCleanup a e r ∧ r.location_id = 1 ∧
      LocationStatus.pending = .clean ∧
      (submitCleanupReport a clock0 e r dbClean).2 = .ok ⟨true, dbClean.nextId⟩) ∨
    (∃ a, Op.dirtyReport 7 1 "p" = Op.consensus a 1 ∧ LocationStatus.pending = .dirty) ∨
    (∃ u p, Op.dirtyReport 7 1 "p" = Op.dirtyReport u 1 p ∧
      (LocationStatus.pending = .dirty ∨
        (LocationStatus.clean = .clean ∧ LocationStatus.pending = .pending))) ∨
    (∃ u r, Op.dirtyReport 7 1 "p" = Op.cleanupClient u r ∧ r.location_id = 1 ∧
      LocationStatus.pending = .clean) :=
  C1_status_writers clock0 (.dirtyReport 7 1 "p") dbClean 1 .clean .pending
    (by decide) (by decide) (by decide)

/-! C7 — idempotence on an already-dirty location. -/

/-- A store holding one dirty location with id 1. -/
def dbDirty : DB := ⟨1, [], [⟨1, .dirty, none⟩], [], [], [], [], [], [], [], [], []⟩

/-- C7: once a location is dirty, every further consensus call and every
further dirty-report call is a no-op with respect to status, points and
fan-out: the store is unchanged by consensus, and the dirty-report flow adds
only its dirty_reports row — no status re-transition, no +3 batch, no
guardian notification, empty fan-out. -/
theorem C7_dirty_idempotent (a : Option Nat) (clock : Clock) (loc : Nat) (db : DB)
    (h : statusOf db loc = some .dirty) :
    ((checkDirtyConsensus a clock loc db).1 = db ∧
     fanoutOf (checkDirtyConsensus a clock loc db).2 = []) ∧
    (∀ (u : Nat) (photo : String),
      (submitReport u clock loc photo db).1.points_log = db.points_log ∧
      (submitReport u clock loc photo db).1.notifications = db.notifications ∧
      (∀ ℓ2, statusOf (submitReport u clock loc photo db).1 ℓ2 = statusOf db ℓ2) ∧
      dirtyFanout (submitReport u clock loc photo db).2 = []) := by
  have hstatusOnly : ∀ (db2 : DB), db2.locations = db.locations →
      ∀ ℓ2, statusOf { db2 with
          locations := db2.locations.map (cleanToPending loc) } ℓ2 = statusOf db ℓ2 := by
    intro db2 hsame ℓ2
    have hmap : ({ db2 with
        locations := db2.locations.map (cleanToPending loc) } : DB).locations =
        db.locations.map (cleanToPending loc) := by
      show db2.locations.map (cleanToPending loc) = _
      rw [hsame]
    rw [statusOf_of_map (cleanToPending_id loc) db _ hmap ℓ2]
    cases hf2 : db.locations.find? (fun l => l.id == ℓ2) with
    | none => unfold statusOf; rw [hf2]; rfl
    | some l0 =>
      have hunch : (cleanToPending loc l0).status = l0.status := by
        by_cases hc : l0.id = loc ∧ l0.status = .clean
        · exfalso
          obtain ⟨ld, hfd, hsd, _⟩ := statusOf_some h
          have hll : ℓ2 = loc := by rw [← find?_id_eq hf2, hc.1]
          rw [hll, hfd] at hf2
          have : ld = l0 := Option.some.inj hf2
          rw [← this] at hc
          rw [hsd] at hc
          exact absurd hc.2 (by simp)
        · unfold cleanToPending
          rw [if_neg hc]
      unfold statusOf
      rw [hf2]
      simp [hunch]
  refine ⟨?_, ?_⟩
  · obtain ⟨h1, h2⟩ := consensus_dirty_noop a clock loc db h
    refine ⟨h1, ?_⟩
    rcases h2 with h2 | ⟨n, h2⟩ <;> rw [h2] <;> rfl
  · intro u photo
    cases hf : db.dirty_reports.find? (fun r =>
        r.user_id == u && r.location_id == loc && r.report_date == clock.day) with
    | some r =>
      have hrw : submitReport u clock loc photo db = (db, .alreadyReported) := by
        simp only [submitReport, hf]
      rw [hrw]
      exact ⟨rfl, rfl, fun ℓ2 => rfl, rfl⟩
    | none =>
      have hrw : submitReport u clock loc photo db =
          (let db1 : DB := { db with dirty_reports := db.dirty_reports ++
            [(⟨u, loc, photo, clock.day, clock.nowMs⟩ : DirtyReportRow)] }
           let res := checkDirtyConsensus (some u) clock loc db1
           ({ res.1 with locations := res.1.locations.map (cleanToPending loc) },
            .done res.2)) := by
        simp only [submitReport, hf]
      rw [hrw]
      simp only
      set db1 : DB := { db with dirty_reports := db.dirty_reports ++
        [(⟨u, loc, photo, clock.day, clock.nowMs⟩ : DirtyReportRow)] } with hdb1def
      have hst1 : statusOf db1 loc = some .dirty := by
        rw [statusOf_congr db db1 rfl loc]
        exact h
      obtain ⟨hid1, hout⟩ := consensus_dirty_noop (some u) clock loc db1 hst1
      rw [hid1]
      refine ⟨rfl, rfl, hstatusOnly db1 rfl, ?_⟩
      rcases hout with h2 | ⟨n, h2⟩ <;> rw [h2] <;> rfl

/-- C7 witness: concrete dirty location, one consensus call and one
dirty-report call. -/
theorem C7_dirty_idempotent_witness :
    (checkDirtyConsensus none clock0 1 dbDirty).1 = dbDirty ∧
    (submitReport 9 clock0 1 "q" dbDirty).1.points_log = dbDirty.points_log ∧
    statusOf (submitReport 9 clock0 1 "q" dbDirty).1 1 = statusOf dbDirty 1 ∧
    dirtyFanout (submitReport 9 clock0 1 "q" dbDirty).2 = [] := by
  have h := C7_dirty_idempotent none clock0 1 dbDirty (by decide)
  exact ⟨h.1.1, (h.2 9 "q").1, (h.2 9 "q").2.2.1 1, (h.2 9 "q").2.2.2⟩

/-! C9 — authentication of the entry points. -/

/-- A store with one pending location and three recent dirty reports from
distinct users. -/
def dbThree : DB :=
  ⟨1, [], [⟨1, .pending, none⟩], [], [],
    [⟨2, 1, "a", 20, 0⟩, ⟨3, 1, "b", 20, 0⟩, ⟨4, 1, "c", 20, 0⟩],
    [], [], [], [], [], []⟩

/-- C9: the claim that every entry point rejects unauthenticated requests
before any state access is refuted by check-dirty-consensus, which carries no
authentication: a request with no identity transitions the location and
appends ledger entries. -/
theorem C9_counterexample :
    statusOf dbThree 1 = some .pending ∧
    statusOf (checkDirtyConsensus none clock0 1 dbThree).1 1 = some .dirty ∧
    (checkDirtyConsensus none clock0 1 dbThree).1.points_log ≠ [] := by
  decide

/-- C9 (amended): create-pending-session and submit-cleanup-report reject a
request without a valid authenticated identity before reading or writing any
state, but check-dirty-consensus performs no authentication at all — its
behaviour is identical for every identity, including none. -/
theorem C9_entry_auth :
    (∀ (t : ℤ) (req : CreateSessionReq) (db : DB),
      createPendingSession none t req db = (db, .error .unauthorized)) ∧
    (∀ (clock : Clock) (env : Env) (req : SubmitReq) (db : DB),
      submitCleanupReport none clock env req db = (db, .error .unauthorized)) ∧
    (∀ (a a2 : Option Nat) (clock : Clock) (loc : Nat) (db : DB),
      checkDirtyConsensus a clock loc db = checkDirtyConsensus a2 clock loc db) :=
  ⟨fun _ _ _ => rfl, fun _ _ _ _ => rfl, fun _ _ _ _ _ => rfl⟩

/-! C10 — the open duplicate check reads only the before-hash column. -/

/-- An empty store. -/
def db0 : DB := ⟨1, [], [], [], [], [], [], [], [], [], [], []⟩

/-- A create-pending-session request carrying fingerprint F. -/
def reqF : CreateSessionReq := ⟨1, "imgF", "F", 0, 0, 5⟩

/-- A second create-pending-session request carrying the same fingerprint F. -/
def reqF2 : CreateSessionReq := ⟨1, "imgF2", "F", 0, 0, 5⟩

/-- The open duplicate rejection is exactly a hit in the before-hash column. -/
theorem create_dup_iff (u : Nat) (t : ℤ) (req : CreateSessionReq) (db : DB) :
    (createPendingSession (some u) t req db).2 = .error .duplicateEvidence ↔
      ∃ r ∈ db.cleanup_reports, r.before_image_hash = req.before_image_hash := by
  constructor
  · intro h
    by_cases hd : db.cleanup_reports.any
        (fun r => r.before_image_hash == req.before_image_hash) = true
    · obtain ⟨r, hr, hh⟩ := List.any_eq_true.mp hd
      exact ⟨r, hr, by simpa using hh⟩
    · exfalso
      have hd2 : db.cleanup_reports.any
          (fun r => r.before_image_hash == req.before_image_hash) = false :=
        Bool.eq_false_iff.mpr hd
      simp [createPendingSession, hd2] at h
  · rintro ⟨r, hr, hh⟩
    have hd : db.cleanup_reports.any
        (fun r => r.before_image_hash == req.before_image_hash) = true :=
      List.any_eq_true.mpr ⟨r, hr, by simp [hh]⟩
    simp [createPendingSession, hd]

/-- C10: create-pending-session rejects a fingerprint with DuplicateEvidence
iff it occurs in the before-hash column of cleanup-report history; fingerprints
held only by other open sessions are not rejected, so two open calls with the
same fingerprint leave two coexisting pending sessions carrying it. -/
theorem C10_open_dedup_before_column :
    (∀ (u : Nat) (t : ℤ) (req : CreateSessionReq) (db : DB),
      (createPendingSession (some u) t req db).2 = .error .duplicateEvidence ↔
        ∃ r ∈ db.cleanup_reports, r.before_image_hash = req.before_image_hash) ∧
    ((createPendingSession (some 8) 0 reqF2
        (createPendingSession (some 7) 0 reqF db0).1).1.pending_sessions.filter
      (fun s => s.before_image_hash == "F")).length = 2 := by
  exact ⟨create_dup_iff, rfl⟩

/-! Fixtures for the submit-cleanup-report pipeline. -/

/-- A pending session of user 7 at the origin with confident GPS. -/
def sessOK : PendingSessionRow := ⟨1, 7, 1, "imgB", "B", 0, 0, 0, 5⟩

/-- A pending session of user 7 at the origin with accuracy 100 m (low
confidence). -/
def sFlag : PendingSessionRow := ⟨1, 7, 1, "imgB", "B", 0, 0, 0, 100⟩

/-- An after-claim at the origin with fresh fingerprint A. -/
def reqA : SubmitReq := ⟨1, 1, "imgA", "A", 0, 0, 5⟩

/-- An after-claim at the origin with fresh fingerprint C. -/
def reqC : SubmitReq := ⟨1, 1, "imgC", "C", 0, 0, 5⟩

/-- An after-claim 180 degrees of longitude away. -/
def reqFar : SubmitReq := ⟨1, 1, "imgA", "A", 0, 180, 5⟩

/-- Store with the confident session open. -/
def dbOK : DB := ⟨5, [], [⟨1, .pending, none⟩], [sessOK], [], [], [], [], [], [], [], []⟩

/-- Store with the low-confidence session open. -/
def dbFlag : DB := ⟨5, [], [⟨1, .pending, none⟩], [sFlag], [], [], [], [], [], [], [], []⟩

/-- A clock 121 minutes past the epoch. -/
def clockLate : Clock := ⟨7260000, "2026-10", 20⟩

/-- Environment with a configured collaborator whose call threw. -/
def envBroken : Env := ⟨true, true⟩

/-- One minute of elapsed time passes the 120-minute window. -/
theorem timeOk_clock0 (s : PendingSessionRow) (hbt : s.before_time = 0) :
    ¬(((clock0.nowMs - s.before_time : ℤ) : ℚ) / 60000 > 120) := by
  rw [hbt]
  norm_num [clock0]

/-- Identical coordinates pass the 500 m ceiling. -/
theorem geoOk_origin (s : PendingSessionRow) (req : SubmitReq)
    (h1 : s.gps_lat = 0) (h2 : s.gps_lng = 0)
    (h3 : req.after_gps_lat = 0) (h4 : req.after_gps_lng = 0) :
    ¬(haversine s.gps_lat s.gps_lng req.after_gps_lat req.after_gps_lng > 500) := by
  rw [h1, h2, h3, h4, haversine_self]
  norm_num

/-! C2 — exactly-once consumption of pending sessions. -/

/-- C2: the claim that one evaluate match always deletes the session —
verified or merely flagged — is refuted: a flagged evaluate (low-confidence
GPS) leaves the session in place, and a second evaluate against the same
session id and owner succeeds and commits a second CleanupReport instead of
failing with NotFound. -/
theorem C2_counterexample :
    (submitCleanupReport (some 7) clock0 env0 reqA dbFlag).2 = .ok ⟨false, 5⟩ ∧
    (submitCleanupReport (some 7) clock0 env0 reqC
      (submitCleanupReport (some 7) clock0 env0 reqA dbFlag).1).2 = .ok ⟨false, 6⟩ ∧
    (submitCleanupReport (some 7) clock0 env0 reqA dbFlag).1.pending_sessions =
      dbFlag.pending_sessions := by
  have h1 := submit_flagged 7 clock0 env0 reqA dbFlag sFlag rfl
    (timeOk_clock0 sFlag rfl) (geoOk_origin sFlag reqA rfl rfl rfl rfl) rfl (by decide)
  refine ⟨by rw [h1]; rfl, ?_, by rw [h1]⟩
  rw [h1]
  simp only
  have h2 := submit_flagged 7 clock0 env0 reqC
    ({ dbFlag with
        cleanup_reports := dbFlag.cleanup_reports ++
          [mkReport dbFlag.nextId 7 clock0 reqA sFlag false (gpsLowOf reqA sFlag)],
        nextId := dbFlag.nextId + 1 }) sFlag rfl
    (timeOk_clock0 sFlag rfl) (geoOk_origin sFlag reqC rfl rfl rfl rfl) (by decide)
    (by decide)
  rw [h2]
  rfl

/-- C2 (amended): a PendingSession is deleted exactly when an evaluate against
it returns verified; after that, any later evaluate with the same session id
fails with NotFound.  A merely flagged evaluate leaves the pending_sessions
table unchanged, so the session can be matched again. -/
theorem C2_consume_once (u : Nat) (clock : Clock) (env : Env) (req : SubmitReq)
    (db db2 : DB) (out : SubmitOk)
    (hrun : submitCleanupReport (some u) clock env req db = (db2, .ok out)) :
    (out.verified = true →
      db2.pending_sessions =
        db.pending_sessions.filter (fun s => !(s.id == req.session_id)) ∧
      ∀ (u2 : Nat) (clock2 : Clock) (env2 : Env) (req2 : SubmitReq),
        req2.session_id = req.session_id →
        (submitCleanupReport (some u2) clock2 env2 req2 db2).2 = .error .notFound) ∧
    (out.verified = false → db2.pending_sessions = db.pending_sessions) := by
  have hgone : ∀ (dbx : DB) (sid : Nat),
      dbx.pending_sessions = db.pending_sessions.filter (fun s => !(s.id == sid)) →
      ∀ (u2 : Nat) (clock2 : Clock) (env2 : Env) (req2 : SubmitReq),
        req2.session_id = sid →
        (submitCleanupReport (some u2) clock2 env2 req2 dbx).2 = .error .notFound := by
    intro dbx sid hdel u2 clock2 env2 req2 hsid
    have hnone : dbx.pending_sessions.find?
        (fun s => s.id == req2.session_id && s.user_id == u2) = none := by
      rw [hdel]
      apply List.find?_eq_none.mpr
      intro s hmem
      have hne := (List.mem_filter.mp hmem).2
      rw [hsid]
      simp only [Bool.not_eq_eq_eq_not, Bool.not_true] at hne
      simp [hne]
    rw [submit_notFound u2 clock2 env2 req2 dbx hnone]
  cases hs : db.pending_sessions.find?
      (fun x => x.id == req.session_id && x.user_id == u) with
  | none =>
    rw [submit_notFound u clock env req db hs] at hrun
    have hbad := congrArg Prod.snd hrun
    simp at hbad
  | some s =>
    by_cases ht : ((clock.nowMs - s.before_time : ℤ) : ℚ) / 60000 > 120
    · rw [submit_timeWindow u clock env req db s hs ht] at hrun
      have hbad := congrArg Prod.snd hrun
      simp at hbad
    by_cases hg : haversine s.gps_lat s.gps_lng req.after_gps_lat req.after_gps_lng > 500
    · rw [submit_geoMismatch u clock env req db s hs ht hg] at hrun
      have hbad := congrArg Prod.snd hrun
      simp at hbad
    cases hd : db.cleanup_reports.any (fun r =>
        r.after_image_hash == req.after_image_hash ||
        r.before_image_hash == req.after_image_hash) with
    | true =>
      rw [submit_duplicate u clock env req db s hs ht hg hd] at hrun
      have hbad := congrArg Prod.snd hrun
      simp at hbad
    | false =>
      cases hv : verifiedOf env req s with
      | false =>
        rw [submit_flagged u clock env req db s hs ht hg hd hv] at hrun
        have hdb2 := congrArg Prod.fst hrun
        have hout := congrArg Prod.snd hrun
        simp only at hdb2 hout
        have hout2 : out = ⟨false, db.nextId⟩ := by
          have := hout.symm
          simpa using this
        constructor
        · intro hv2
          rw [hout2] at hv2
          exact absurd hv2 (by simp)
        · intro _
          rw [← hdb2]
      | true =>
        rw [submit_verified u clock env req db s hs ht hg hd hv] at hrun
        have hdb2 := congrArg Prod.fst hrun
        have hout := congrArg Prod.snd hrun
        simp only at hdb2 hout
        have hout2 : out = ⟨true, db.nextId⟩ := by
          have := hout.symm
          simpa using this
        constructor
        · intro _
          have hdel : db2.pending_sessions =
              db.pending_sessions.filter (fun s => !(s.id == req.session_id)) := by
            rw [← hdb2]
          exact ⟨hdel, hgone db2 req.session_id hdel⟩
        · intro hv2
          rw [hout2] at hv2
          exact absurd hv2 (by simp)

/-- C2 witness: a verified evaluate consumes the session; the retry with the
same session id fails with NotFound. -/
theorem C2_consume_once_witness :
    (submitCleanupReport (some 9) clock0 env0 reqC
      (submitCleanupReport (some 7) clock0 env0 reqA dbOK).1).2 = .error .notFound := by
  have hrun := submit_verified 7 clock0 env0 reqA dbOK sessOK rfl
    (timeOk_clock0 sessOK rfl) (geoOk_origin sessOK reqA rfl rfl rfl rfl) rfl (by decide)
  have h := C2_consume_once 7 clock0 env0 reqA dbOK _ ⟨true, dbOK.nextId⟩ hrun
  rw [show (submitCleanupReport (some 7) clock0 env0 reqA dbOK).1 = _ from
    congrArg Prod.fst hrun]
  exact (h.1 rfl).2 9 clock0 env0 reqC rfl

/-! C3 — the geo ceiling and its place in the pipeline. -/

/-- C3: the claim that any pair of fixes more than 500 m apart is rejected
with GeoMismatch regardless of all other signals — elapsed time included — is
refuted: when the elapsed time also exceeds the window, the time check fires
first and the submission is rejected with TimeWindowExceeded instead. -/
theorem C3_counterexample :
    haversine sessOK.gps_lat sessOK.gps_lng reqFar.after_gps_lat reqFar.after_gps_lng
      > 500 ∧
    submitCleanupReport (some 7) clockLate env0 reqFar dbOK =
      (dbOK, .error .timeWindowExceeded) := by
  constructor
  · exact haversine_antipodal_gt
  · exact submit_timeWindow 7 clockLate env0 reqFar dbOK sessOK rfl
      (by norm_num [clockLate, sessOK])

/-- C3 (amended): provided the session matches and the elapsed time is within
the 120-minute window, any haversine distance above 500 m is rejected with
GeoMismatch, regardless of fingerprints, similarity environment and reported
accuracies, and the store is left unchanged. -/
theorem C3_geo_rejection (u : Nat) (clock : Clock) (env : Env) (req : SubmitReq)
    (db : DB) (s : PendingSessionRow)
    (hs : db.pending_sessions.find? (fun x => x.id == req.session_id && x.user_id == u)
      = some s)
    (ht : ¬(((clock.nowMs - s.before_time : ℤ) : ℚ) / 60000 > 120))
    (hg : haversine s.gps_lat s.gps_lng req.after_gps_lat req.after_gps_lng > 500) :
    submitCleanupReport (some u) clock env req db = (db, .error .geoMismatch) :=
  submit_geoMismatch u clock env req db s hs ht hg

/-- C3 witness: origin-to-antipode coordinates with a fresh session. -/
theorem C3_geo_rejection_witness :
    submitCleanupReport (some 7) clock0 env0 reqFar dbOK =
      (dbOK, .error .geoMismatch) :=
  C3_geo_rejection 7 clock0 env0 reqFar dbOK sessOK rfl
    (timeOk_clock0 sessOK rfl) haversine_antipodal_gt

/-! C4 — duplicate-evidence checks across both hash columns. -/

/-- Store whose history holds before-hash Y and after-hash X, with no open
session. -/
def dbAfter : DB :=
  ⟨2, [], [], [], [⟨1, 9, 1, "pb", "Y", "pa", "X", 0, 0, true, false⟩],
    [], [], [], [], [], [], []⟩

/-- An open request reusing fingerprint X (present only in the after column). -/
def reqX : CreateSessionReq := ⟨1, "img", "X", 0, 0, 5⟩

/-- An open request reusing fingerprint Y (present in the before column). -/
def reqY : CreateSessionReq := ⟨1, "img", "Y", 0, 0, 5⟩

/-- Store with the confident session open and a history row with before-hash Y
and after-hash A. -/
def dbDup : DB :=
  ⟨5, [], [⟨1, .pending, none⟩], [sessOK],
    [⟨2, 9, 1, "pb", "Y", "pa", "A", 0, 0, false, false⟩], [], [], [], [], [], [], []⟩

/-- C4: the claim that a fingerprint present anywhere in history — before or
after column — is rejected at open as well as at evaluate is refuted at open:
a fingerprint occurring only in the after column is accepted by
create-pending-session. -/
theorem C4_counterexample :
    dbAfter.cleanup_reports.any (fun r => r.after_image_hash == "X") = true ∧
    dbAfter.cleanup_reports.any (fun r => r.before_image_hash == "X") = false ∧
    (createPendingSession (some 8) 0 reqX dbAfter).2 = .ok 2 := by
  exact ⟨rfl, rfl, rfl⟩

/-- C4 (amended): evaluate rejects with DuplicateEvidence any after-fingerprint
present in either hash column of history, once the session, time and geo
checks pass; open rejects a fingerprint iff it is present in the before-hash
column, so an after-column fingerprint passes open. -/
theorem C4_dedup_columns :
    (∀ (u : Nat) (clock : Clock) (env : Env) (req : SubmitReq) (db : DB)
      (s : PendingSessionRow),
      db.pending_sessions.find? (fun x => x.id == req.session_id && x.user_id == u)
        = some s →
      ¬(((clock.nowMs - s.before_time : ℤ) : ℚ) / 60000 > 120) →
      ¬(haversine s.gps_lat s.gps_lng req.after_gps_lat req.after_gps_lng > 500) →
      (∃ r ∈ db.cleanup_reports, r.after_image_hash = req.after_image_hash ∨
        r.before_image_hash = req.after_image_hash) →
      submitCleanupReport (some u) clock env req db = (db, .error .duplicateEvidence)) ∧
    (∀ (u : Nat) (t : ℤ) (req : CreateSessionReq) (db : DB),
      (createPendingSession (some u) t req db).2 = .error .duplicateEvidence ↔
        ∃ r ∈ db.cleanup_reports, r.before_image_hash = req.before_image_hash) := by
  constructor
  · intro u clock env req db s hs ht hg hex
    obtain ⟨r, hr, hh⟩ := hex
    have hd : db.cleanup_reports.any (fun r =>
        r.after_image_hash == req.after_image_hash ||
        r.before_image_hash == req.after_image_hash) = true := by
      apply List.any_eq_true.mpr
      refine ⟨r, hr, ?_⟩
      rcases hh with hh | hh <;> simp [hh]
    exact submit_duplicate u clock env req db s hs ht hg hd
  · exact create_dup_iff

/-- C4 witness: the after-hash A in history blocks the evaluate reusing A; the
before-hash Y blocks an open reusing Y; the after-only hash X passes open. -/
theorem C4_dedup_columns_witness :
    submitCleanupReport (some 7) clock0 env0 reqA dbDup =
      (dbDup, .error .duplicateEvidence) ∧
    (createPendingSession (some 7) 0 reqY dbDup).2 = .error .duplicateEvidence ∧
    ¬((createPendingSession (some 7) 0 reqX dbDup).2 = .error .duplicateEvidence) := by
  have h := C4_dedup_columns
  refine ⟨?_, ?_, ?_⟩
  · exact h.1 7 clock0 env0 reqA dbDup sessOK rfl (timeOk_clock0 sessOK rfl)
      (geoOk_origin sessOK reqA rfl rfl rfl rfl) (by decide)
  · exact (h.2 7 0 reqY dbDup).mpr (by decide)
  · intro hbad
    have := (h.2 7 0 reqX dbDup).mp hbad
    exact absurd this (by decide)

/-! C5 — the trust decision formula. -/

/-- C5: the claim that imageDiffPassed defaults to true when the collaborator
is unavailable is refuted: with the collaborator configured but its call
throwing, a GPS-confident submission is flagged (verified = false) although
the claim formula verified = NOT lowConfidence AND imageDiffPassed with a
default-true imageDiffPassed predicts verified = true. -/
theorem C5_counterexample :
    gpsLowOf reqA sessOK = false ∧
    envBroken.cloudinaryConfigured = true ∧ envBroken.imageDiffThrew = true ∧
    (submitCleanupReport (some 7) clock0 envBroken reqA dbOK).2 = .ok ⟨false, 5⟩ := by
  refine ⟨by decide, rfl, rfl, ?_⟩
  rw [submit_flagged 7 clock0 envBroken reqA dbOK sessOK rfl
    (timeOk_clock0 sessOK rfl) (geoOk_origin sessOK reqA rfl rfl rfl rfl) rfl (by decide)]
  rfl

/-- C5 (amended): when the pipeline reaches the trust decision, the response is
ok with verified = NOT gpsLowConfidence AND (imageDiffPassed OR collaborator
not configured), where imageDiffPassed is false exactly when the configured
collaborator call threw; unavailability never fails the request — it only
downgrades to flagged. -/
theorem C5_verified_formula (u : Nat) (clock : Clock) (env : Env) (req : SubmitReq)
    (db : DB) (s : PendingSessionRow)
    (hs : db.pending_sessions.find? (fun x => x.id == req.session_id && x.user_id == u)
      = some s)
    (ht : ¬(((clock.nowMs - s.before_time : ℤ) : ℚ) / 60000 > 120))
    (hg : ¬(haversine s.gps_lat s.gps_lng req.after_gps_lat req.after_gps_lng > 500))
    (hd : db.cleanup_reports.any (fun r =>
      r.after_image_hash == req.after_image_hash ||
      r.before_image_hash == req.after_image_hash) = false) :
    (submitCleanupReport (some u) clock env req db).2 =
      .ok ⟨!gpsLowOf req s && (!env.imageDiffThrew || !env.cloudinaryConfigured),
        db.nextId⟩ := by
  cases hv : verifiedOf env req s with
  | true =>
    rw [submit_verified u clock env req db s hs ht hg hd hv]
    rw [← hv]
    rfl
  | false =>
    rw [submit_flagged u clock env req db s hs ht hg hd hv]
    rw [← hv]
    rfl

/-- C5 witness: with no collaborator configured and confident GPS, the claim is
verified. -/
theorem C5_verified_formula_witness :
    (submitCleanupReport (some 7) clock0 env0 reqA dbOK).2 = .ok ⟨true, 5⟩ := by
  have h := C5_verified_formula 7 clock0 env0 reqA dbOK sessOK rfl
    (timeOk_clock0 sessOK rfl) (geoOk_origin sessOK reqA rfl rfl rfl rfl) rfl
  rw [h]
  rfl

/-! C6 — points, re-clean bonus and status effect of the trust outcome. -/

/-- Store with the confident session open and one prior UNverified report of
the same user at the same location. -/
def dbReflag : DB :=
  ⟨5, [], [⟨1, .pending, none⟩], [sessOK],
    [⟨2, 7, 1, "pb", "PB", "pa", "PA", 0, 0, false, false⟩], [], [], [], [], [], [], []⟩

/-- C6: the claim that the 15-point bonus is awarded exactly when the pair has
a prior ACCEPTED report is refuted: a prior merely-flagged report also earns
the bonus. -/
theorem C6_counterexample :
    dbReflag.cleanup_reports.all (fun r => !r.verified) = true ∧
    (submitCleanupReport (some 7) clock0 env0 reqA dbReflag).1.points_log =
      [⟨7, 15, "verified_cleanup_reclean", some 1, "2026-10"⟩] := by
  constructor
  · rfl
  · rw [submit_verified 7 clock0 env0 reqA dbReflag sessOK rfl
      (timeOk_clock0 sessOK rfl) (geoOk_origin sessOK reqA rfl rfl rfl rfl)
      rfl (by decide)]
    decide

/-- C6 (amended): when the pipeline reaches the trust decision — where the
re-clean flag is a prior report of the (user, location) pair of any verified
status — a verified outcome appends exactly one ledger entry of 15 (re-clean)
or 10 (first clean) points tagged with the current month key and sets the
location clean with a fresh last_cleaned_at, while a flagged outcome leaves
ledger and locations untouched; the report row is persisted either way. -/
theorem C6_points_and_status (u : Nat) (clock : Clock) (env : Env) (req : SubmitReq)
    (db : DB) (s : PendingSessionRow)
    (hs : db.pending_sessions.find? (fun x => x.id == req.session_id && x.user_id == u)
      = some s)
    (ht : ¬(((clock.nowMs - s.before_time : ℤ) : ℚ) / 60000 > 120))
    (hg : ¬(haversine s.gps_lat s.gps_lng req.after_gps_lat req.after_gps_lng > 500))
    (hd : db.cleanup_reports.any (fun r =>
      r.after_image_hash == req.after_image_hash ||
      r.before_image_hash == req.after_image_hash) = false) :
    (verifiedOf env req s = true →
      (submitCleanupReport (some u) clock env req db).1.points_log =
        db.points_log ++
          [⟨u,
            if db.cleanup_reports.any (fun r =>
              r.user_id == u && r.location_id == req.location_id) then 15 else 10,
            if db.cleanup_reports.any (fun r =>
              r.user_id == u && r.location_id == req.location_id) then
              "verified_cleanup_reclean" else "verified_cleanup",
            some req.location_id, clock.month⟩] ∧
      (submitCleanupReport (some u) clock env req db).1.locations =
        db.locations.map (setClean req.location_id clock.nowMs)) ∧
    (verifiedOf env req s = false →
      (submitCleanupReport (some u) clock env req db).1.points_log = db.points_log ∧
      (submitCleanupReport (some u) clock env req db).1.locations = db.locations) ∧
    (submitCleanupReport (some u) clock env req db).1.cleanup_reports =
      db.cleanup_reports ++
        [mkReport db.nextId u clock req s (verifiedOf env req s) (gpsLowOf req s)] := by
  cases hv : verifiedOf env req s with
  | true =>
    rw [submit_verified u clock env req db s hs ht hg hd hv]
    refine ⟨fun _ => ⟨rfl, rfl⟩, fun hbad => absurd hbad (by simp), ?_⟩
    simp only [hv]
  | false =>
    rw [submit_flagged u clock env req db s hs ht hg hd hv]
    refine ⟨fun hbad => absurd hbad (by simp), fun _ => ⟨rfl, rfl⟩, ?_⟩
    simp only [hv]

/-- C6 witness: a first clean earns 10 points and sets the location clean. -/
theorem C6_points_and_status_witness :
    (submitCleanupReport (some 7) clock0 env0 reqA dbOK).1.points_log =
      [⟨7, 10, "verified_cleanup", some 1, "2026-10"⟩] ∧
    statusOf (submitCleanupReport (some 7) clock0 env0 reqA dbOK).1 1 =
      some .clean := by
  have h := C6_points_and_status 7 clock0 env0 reqA dbOK sessOK rfl
    (timeOk_clock0 sessOK rfl) (geoOk_origin sessOK reqA rfl rfl rfl rfl) rfl
  have h1 := (h.1 (by decide)).1
  have h2 := (h.1 (by decide)).2
  constructor
  · rw [h1]
    decide
  · rw [statusOf_of_map (setClean_id reqA.location_id clock0.nowMs) dbOK _ h2 1]
    decide

/-! C8 — append-only ledger and pure aggregation. -/

/-- Store with a users row for user 2 (zero counters), one pending location and
three recent dirty reports including one by user 2. -/
def dbC8 : DB :=
  ⟨1, [⟨2, 0, 0, none⟩], [⟨1, .pending, none⟩], [], [],
    [⟨2, 1, "a", 20, 0⟩, ⟨3, 1, "b", 20, 0⟩, ⟨4, 1, "c", 20, 0⟩],
    [], [], [], [], [], []⟩

/-- C8: the claim that the lifetime total is a pure aggregation over the
ledger is refuted: a consensus event appends +3 ledger entries without
touching users.total_points, the column the profile and all-time leaderboard
display, so the displayed lifetime total (0) differs from the ledger sum (3). -/
theorem C8_counterexample :
    totalFor (checkDirtyConsensus none clock0 1 dbC8).1 2 = 3 ∧
    totalPointsColumn (checkDirtyConsensus none clock0 1 dbC8).1 2 = some 0 := by
  decide

/-- C8 (amended): the points ledger is append-only under every operation; a
month's totals are pure aggregations over it — the archive's per-user Map fold
equals the sum of the ledger entries of that user and month, and is unaffected
by entries of other months — and the monthly archive deletes or mutates no
ledger entry.  The users.total_points lifetime counter is maintained
separately and is not part of this aggregation guarantee. -/
theorem C8_ledger_aggregation :
    (∀ (db : DB) (u : Nat) (m : String),
      lookupTotalD (aggregateRows (db.points_log.filter (fun r => r.month == m))) u =
        monthlyTotalFor db u m) ∧
    (∀ (db : DB) (e : PointsLogRow) (u : Nat) (m : String), e.month ≠ m →
      monthlyTotalFor { db with points_log := db.points_log ++ [e] } u m =
        monthlyTotalFor db u m) ∧
    (∀ (s : Bool) (clock : Clock) (m : String) (db : DB),
      ((archiveMonthlyLeaderboard s clock m db).1).points_log = db.points_log) ∧
    (∀ (clock : Clock) (op : Op) (db : DB),
      ∃ new, (step clock op db).points_log = db.points_log ++ new) := by
  refine ⟨?_, ?_, ?_, ?_⟩
  · intro db u m
    rw [lookupTotalD_aggregate]
    unfold monthlyTotalFor
    rw [List.filter_filter]
  · intro db e u m hm
    rw [monthlyTotalFor_append]
    simp [hm]
  · intro s clock m db
    exact (archive_shape s clock m db).2
  · intro clock op db
    cases op with
    | createSession a r =>
      exact ⟨[], by rw [List.append_nil]; exact (create_shape a clock.nowMs r db).2⟩
    | submitCleanup a e r =>
      rcases submitCleanup_shape a clock e r db with ⟨_, hp⟩ | ⟨_, ⟨en, hp⟩, _⟩
      · exact ⟨[], by rw [List.append_nil]; exact hp⟩
      · exact ⟨[en], hp⟩
    | dirtyReport u l p =>
      exact (submitReport_shape u clock l p db).2
    | consensus a l =>
      rcases consensus_shape a clock l db with hdb | ⟨_, ps, hp⟩
      · refine ⟨[], ?_⟩
        rw [List.append_nil]
        show ((checkDirtyConsensus a clock l db).1).points_log = db.points_log
        rw [hdb]
      · exact ⟨ps, hp⟩
    | archive s m =>
      exact ⟨[], by rw [List.append_nil]; exact (archive_shape s clock m db).2⟩
    | cleanupClient u r =>
      rcases submitCleanupClient_shape u clock r db with ⟨_, hp⟩ | ⟨_, ps, hp⟩
      · exact ⟨[], by rw [List.append_nil]; exact hp⟩
      · exact ⟨ps, hp⟩

/-- C8 witness: an entry of another month does not change a month's total, on
a concrete ledger. -/
theorem C8_ledger_aggregation_witness :
    monthlyTotalFor
      { db0 with points_log := db0.points_log ++
        [⟨7, 5, "verified_cleanup", none, "2026-09"⟩] } 7 "2026-10" =
      monthlyTotalFor db0 7 "2026-10" :=
  C8_ledger_aggregation.2.1 db0 ⟨7, 5, "verified_cleanup", none, "2026-09"⟩ 7 "2026-10"
    (by decide)

end Spot0